import Mathlib

/-!
Verification of the knowledge-retrieval node configuration contract
(web/app/components/workflow/nodes/knowledge-retrieval/types.ts).

The source file declares the TypeScript types `MultipleRetrievalConfig`,
`SingleRetrievalConfig` and `KnowledgeRetrievalNodeType`.  Those types are
embedded below field by field: an optional field (`name?:`) becomes an
`Option`, the union `number | null | undefined` becomes a three-variant
inductive, and TypeScript `number` becomes `ℚ` for scores and weights and
`Int` for the integer bound `top_k`.

The enums `RETRIEVE_TYPE`, `RerankingModeEnum`, `WeightedScoreEnum` and the
types `ModelConfig`, `ValueSelector` are imported by the source from other
modules that are not part of this fragment; likewise the validator, the
mode resolver and the fusion-plan semantics are consumed by an external
executor.  Those parts are modelled from the specification, each marked
`Modelled from the spec:` in its doc comment.
-/

namespace KnowledgeRetrieval

/-- Modelled from the spec: the retrieval-mode discriminator (`RETRIEVE_TYPE`
from `@/types/app`), selecting the single-model strategy or the
multi-dataset strategy. -/
inductive RETRIEVE_TYPE
  | single
  | multiple
deriving DecidableEq, Repr

/-- Modelled from the spec: the reranking-strategy discriminator
(`RerankingModeEnum` from `@/models/datasets`); §4 of the spec describes the
three strategies it selects between. -/
inductive RerankingModeEnum
  | noRerank
  | modelRerank
  | weightedScore
deriving DecidableEq, Repr

/-- Modelled from the spec: the weight-type discriminator
(`WeightedScoreEnum` from `@/models/datasets`), "discriminator between a
single-vector weighting scheme and a customizable vector/keyword split". -/
inductive WeightedScoreEnum
  | singleVector
  | customized
deriving DecidableEq, Repr

/-- The `vector_setting` object inside `weights`: all three fields are
mandatory in the source type. -/
structure VectorSetting where
  vector_weight : ℚ
  embedding_provider_name : String
  embedding_model_name : String
deriving DecidableEq, Repr

/-- The `keyword_setting` object inside `weights`: `keyword_weight` is
mandatory in the source type. -/
structure KeywordSetting where
  keyword_weight : ℚ
deriving DecidableEq, Repr

/-- The `weights` object of `MultipleRetrievalConfig`: `weight_type`,
`vector_setting` and `keyword_setting` are all mandatory in the source. -/
structure Weights where
  weight_type : WeightedScoreEnum
  vector_setting : VectorSetting
  keyword_setting : KeywordSetting
deriving DecidableEq, Repr

/-- The source value type of `score_threshold`:
`number | null | undefined`.  The field itself is mandatory; absence of a
threshold is encoded by the `null` / `undefined` values. -/
inductive ScoreThreshold
  | val (q : ℚ)
  | null
  | undefined
deriving DecidableEq, Repr

/-- The inline `reranking_model` object: `provider` and `model` strings. -/
structure RerankingModelRef where
  provider : String
  model : String
deriving DecidableEq, Repr

/-- `MultipleRetrievalConfig` from the source: `top_k` and
`score_threshold` are mandatory fields, `reranking_model`,
`reranking_mode` and `weights` are optional (`?:` in TypeScript). -/
structure MultipleRetrievalConfig where
  top_k : Int
  score_threshold : ScoreThreshold
  reranking_model : Option RerankingModelRef := none
  reranking_mode : Option RerankingModeEnum := none
  weights : Option Weights := none
deriving DecidableEq, Repr

/-- Modelled from the spec: `ModelConfig` (external), "a model reference
(provider + model name + invocation parameters)". -/
structure ModelConfig where
  provider : String
  name : String
deriving DecidableEq, Repr

/-- `SingleRetrievalConfig` from the source: a single mandatory `model`. -/
structure SingleRetrievalConfig where
  model : ModelConfig
deriving DecidableEq, Repr

/-- Modelled from the spec: `ValueSelector` (external), an addressing path
into the workflow variable namespace. -/
abbrev ValueSelector := List String

/-- `KnowledgeRetrievalNodeType` from the source (the generic
`CommonNodeType` envelope fields are external and omitted):
`query_variable_selector`, `dataset_ids` and `retrieval_mode` are
mandatory, the two sub-configurations are optional. -/
structure KnowledgeRetrievalNodeType where
  query_variable_selector : ValueSelector
  dataset_ids : List String
  retrieval_mode : RETRIEVE_TYPE
  multiple_retrieval_config : Option MultipleRetrievalConfig := none
  single_retrieval_config : Option SingleRetrievalConfig := none
deriving DecidableEq, Repr

/-- Modelled from the spec: the error taxonomy of §7. -/
inductive ValidationError
  | ConfigIncomplete
  | ConfigMismatch
  | InvalidBound
  | UnresolvedVariable
  | EmptyDatasetSet
deriving DecidableEq, Repr

/-- The floating-point tolerance the spec allows on the weight sum. -/
def tol : ℚ := 1 / 1000000

/-- Modelled from the spec: the weight bounds and weight-sum invariant of
§3 — each weight lies in `[0,1]` and the weights sum to 1 within
tolerance. -/
def WeightsOk (w : Weights) : Prop :=
  0 ≤ w.vector_setting.vector_weight ∧ w.vector_setting.vector_weight ≤ 1 ∧
  0 ≤ w.keyword_setting.keyword_weight ∧ w.keyword_setting.keyword_weight ≤ 1 ∧
  |w.vector_setting.vector_weight + w.keyword_setting.keyword_weight - 1| ≤ tol

instance : DecidablePred WeightsOk := fun w => by
  unfold WeightsOk; infer_instance

/-- Modelled from the spec: validation of the multiple-retrieval
sub-configuration — `top_k ≥ 1` (`InvalidBound` otherwise), weighted mode
requires `weights` (`ConfigIncomplete`, scenario D), and present weights in
weighted mode must satisfy the bound/sum invariant (`InvalidBound`). -/
def validateMultiple (m : MultipleRetrievalConfig) : List ValidationError :=
  (if m.top_k < 1 then [ValidationError.InvalidBound] else []) ++
  (match m.reranking_mode, m.weights with
   | some RerankingModeEnum.weightedScore, none => [ValidationError.ConfigIncomplete]
   | some RerankingModeEnum.weightedScore, some w =>
       if WeightsOk w then [] else [ValidationError.InvalidBound]
   | _, _ => [])

/-- Modelled from the spec: `validate(config)` of §4.1 — empty dataset set
(`EmptyDatasetSet`), discriminator/payload consistency (`ConfigMismatch`
when both or neither sub-configuration is populated, `ConfigIncomplete`
when the discriminator-selected payload is missing), then validation of the
active multiple-retrieval payload. -/
def validate (c : KnowledgeRetrievalNodeType) : List ValidationError :=
  (if c.dataset_ids = [] then [ValidationError.EmptyDatasetSet] else []) ++
  (match c.retrieval_mode, c.multiple_retrieval_config, c.single_retrieval_config with
   | _, some _, some _ => [ValidationError.ConfigMismatch]
   | _, none, none => [ValidationError.ConfigMismatch]
   | RETRIEVE_TYPE.multiple, some m, none => validateMultiple m
   | RETRIEVE_TYPE.multiple, none, some _ => [ValidationError.ConfigIncomplete]
   | RETRIEVE_TYPE.single, none, some _ => []
   | RETRIEVE_TYPE.single, some _, none => [ValidationError.ConfigIncomplete])

/-- The consistency property of §3: exactly one sub-configuration is
populated, and it is the one `retrieval_mode` selects. -/
def exactlyOnePopulated (c : KnowledgeRetrievalNodeType) : Prop :=
  match c.retrieval_mode with
  | RETRIEVE_TYPE.single =>
      c.single_retrieval_config.isSome ∧ c.multiple_retrieval_config = none
  | RETRIEVE_TYPE.multiple =>
      c.multiple_retrieval_config.isSome ∧ c.single_retrieval_config = none

/-- Modelled from the spec: a retrieval candidate as the fusion plan of
§4.1 sees it — its native per-dataset relevance score, its vector
similarity and its keyword relevance. -/
structure Candidate where
  native_score : ℚ
  vector_similarity : ℚ
  keyword_relevance : ℚ
  content : String := ""
deriving DecidableEq, Repr

/-- Modelled from the spec: the per-candidate score of the fusion plan.
No reranking (mode absent or `noRerank`): native score.  Model reranking:
the external reranker score.  Weighted-score reranking: the convex
combination `vector_weight * vector_similarity + keyword_weight *
keyword_relevance`. -/
def fusedScore (m : MultipleRetrievalConfig) (rerank : Candidate → ℚ)
    (c : Candidate) : ℚ :=
  match m.reranking_mode with
  | none => c.native_score
  | some RerankingModeEnum.noRerank => c.native_score
  | some RerankingModeEnum.modelRerank => rerank c
  | some RerankingModeEnum.weightedScore =>
      match m.weights with
      | some w =>
          w.vector_setting.vector_weight * c.vector_similarity +
          w.keyword_setting.keyword_weight * c.keyword_relevance
      | none => c.native_score

/-- The ordering the fusion plan sorts candidates by: strictly greater
fused score first; at equal fused scores, stable input order (position in
the input list, which is dataset order then original per-dataset rank). -/
def candKey (f : Candidate → ℚ) (a b : Nat × Candidate) : Prop :=
  f b.2 < f a.2 ∨ (f a.2 = f b.2 ∧ a.1 ≤ b.1)

instance (f : Candidate → ℚ) : DecidableRel (candKey f) := fun a b => by
  unfold candKey; infer_instance

instance (f : Candidate → ℚ) : IsTotal (Nat × Candidate) (candKey f) where
  total a b := by
    unfold candKey
    rcases lt_trichotomy (f a.2) (f b.2) with h | h | h
    · exact Or.inr (Or.inl h)
    · rcases Nat.le_total a.1 b.1 with h' | h'
      · exact Or.inl (Or.inr ⟨h, h'⟩)
      · exact Or.inr (Or.inr ⟨h.symm, h'⟩)
    · exact Or.inl (Or.inl h)

instance (f : Candidate → ℚ) : IsTrans (Nat × Candidate) (candKey f) where
  trans a b c hab hbc := by
    unfold candKey at *
    rcases hab with h1 | ⟨e1, i1⟩
    · rcases hbc with h2 | ⟨e2, _⟩
      · exact Or.inl (h2.trans h1)
      · exact Or.inl (e2 ▸ h1)
    · rcases hbc with h2 | ⟨e2, i2⟩
      · exact Or.inl (e1 ▸ h2)
      · exact Or.inr ⟨e1.trans e2, i1.trans i2⟩

/-- Modelled from the spec: `describeFusion(config)` of §4.1, applied to
the candidates gathered from all datasets, given in stable input order
(dataset order in `dataset_ids`, then original per-dataset rank), each
paired with its input position.  The plan scores every candidate
(`fusedScore`), ranks by score with ties broken by input position, merges,
truncates the merged list to `top_k`, then filters out results whose score
is below `score_threshold` (no filtering when the threshold is
`null`/`undefined`). -/
def describeFusionIndexed (m : MultipleRetrievalConfig)
    (rerank : Candidate → ℚ) (cs : List Candidate) : List (Nat × Candidate) :=
  let f := fusedScore m rerank
  let ranked := (cs.enum).insertionSort (candKey f)
  let truncated := ranked.take m.top_k.toNat
  match m.score_threshold with
  | ScoreThreshold.val t => truncated.filter (fun p => decide (t ≤ f p.2))
  | _ => truncated

/-- The fusion plan's result list (positions dropped). -/
def describeFusion (m : MultipleRetrievalConfig) (rerank : Candidate → ℚ)
    (cs : List Candidate) : List Candidate :=
  (describeFusionIndexed m rerank cs).map Prod.snd

/-- Modelled from the spec: the executor entry point — validation runs
first and reports its violations; only a configuration with no violations
proceeds to retrieval (per-dataset retrieval in `dataset_ids` order,
then the fusion plan on the multiple path, the model's own ordering on the
single path). -/
def execute (c : KnowledgeRetrievalNodeType) (retrieve : String → List Candidate)
    (rerank : Candidate → ℚ) : Except (List ValidationError) (List Candidate) :=
  if validate c = [] then
    match c.multiple_retrieval_config with
    | some m => Except.ok (describeFusion m rerank ((c.dataset_ids.map retrieve).flatten))
    | none => Except.ok ((c.dataset_ids.map retrieve).flatten)
  else
    Except.error (validate c)

/-! ### Concrete sample configurations used by the witnesses -/

/-- Weights of scenario C: vector 0.7, keyword 0.3. -/
def sampleWeights : Weights :=
  { weight_type := WeightedScoreEnum.customized
    vector_setting :=
      { vector_weight := 7/10
        embedding_provider_name := "openai"
        embedding_model_name := "text-embedding-3-large" }
    keyword_setting := { keyword_weight := 3/10 } }

/-- A multiple-retrieval config in weighted-score mode (scenario C). -/
def sampleMultiWeighted : MultipleRetrievalConfig :=
  { top_k := 3
    score_threshold := ScoreThreshold.val (1/2)
    reranking_mode := some RerankingModeEnum.weightedScore
    weights := some sampleWeights }

/-- A multiple-retrieval config in no-reranking mode (scenario B). -/
def sampleMultiNone : MultipleRetrievalConfig :=
  { top_k := 3
    score_threshold := ScoreThreshold.val (1/2)
    reranking_mode := some RerankingModeEnum.noRerank }

/-- A valid multiple-mode node over dataset "ds1" (scenario B). -/
def sampleNodeMulti : KnowledgeRetrievalNodeType :=
  { query_variable_selector := ["sys", "query"]
    dataset_ids := ["ds1"]
    retrieval_mode := RETRIEVE_TYPE.multiple
    multiple_retrieval_config := some sampleMultiNone }

/-- A node with neither sub-configuration populated. -/
def sampleNodeBothAbsent : KnowledgeRetrievalNodeType :=
  { query_variable_selector := ["sys", "query"]
    dataset_ids := ["ds1"]
    retrieval_mode := RETRIEVE_TYPE.multiple }

/-- A node whose dataset list is empty. -/
def sampleNodeEmpty : KnowledgeRetrievalNodeType :=
  { query_variable_selector := ["sys", "query"]
    dataset_ids := []
    retrieval_mode := RETRIEVE_TYPE.multiple
    multiple_retrieval_config := some sampleMultiNone }

/-- The candidate of scenario C: vector similarity 0.8, keyword
relevance 0.2. -/
def sampleCand : Candidate :=
  { native_score := 9/10, vector_similarity := 8/10, keyword_relevance := 2/10 }

/-- A trivial external reranker. -/
def rerank0 : Candidate → ℚ := fun _ => 0

/-- A retrieval stub returning no candidates. -/
def retrieve0 : String → List Candidate := fun _ => []

/-- A retrieval stub returning one candidate. -/
def retrieve1 : String → List Candidate := fun _ => [sampleCand]

/-! ### Claims -/

/-- C1: for every configuration that passes validation, exactly one of
`multiple_retrieval_config` / `single_retrieval_config` is populated and it
is the one `retrieval_mode` selects; a configuration with both absent fails
validation. -/
theorem C1_exactly_one_subconfig (c : KnowledgeRetrievalNodeType) :
    (validate c = [] → exactlyOnePopulated c) ∧
    (c.multiple_retrieval_config = none ∧ c.single_retrieval_config = none →
      validate c ≠ []) := by
  constructor
  · intro h
    rcases c with ⟨qs, ds, mode, mc, sc⟩
    simp only [validate, List.append_eq_nil] at h
    obtain ⟨-, h2⟩ := h
    cases mode <;> cases mc <;> cases sc <;>
      simp_all [exactlyOnePopulated]
  · rintro ⟨hm, hs⟩ h
    rcases c with ⟨qs, ds, mode, mc, sc⟩
    cases hm; cases hs
    simp only [validate, List.append_eq_nil] at h
    obtain ⟨-, h2⟩ := h
    cases mode <;> simp_all

/-- Witness for C1 at a concrete valid node and a concrete node with both
sub-configurations absent. -/
theorem C1_exactly_one_subconfig_witness :
    exactlyOnePopulated sampleNodeMulti ∧ validate sampleNodeBothAbsent ≠ [] :=
  ⟨(C1_exactly_one_subconfig sampleNodeMulti).1 (by decide),
   (C1_exactly_one_subconfig sampleNodeBothAbsent).2 ⟨rfl, rfl⟩⟩

/-- C4: a multiple-retrieval config accepted by validation has
`top_k ≥ 1`; `top_k = 0` and negative values are rejected. -/
theorem C4_top_k_positive (c : KnowledgeRetrievalNodeType)
    (m : MultipleRetrievalConfig) :
    (c.multiple_retrieval_config = some m → validate c = [] → 1 ≤ m.top_k) ∧
    (m.top_k < 1 → validateMultiple m ≠ []) := by
  constructor
  · intro hm h
    rcases c with ⟨qs, ds, mode, mc, sc⟩
    cases hm
    simp only [validate, List.append_eq_nil] at h
    obtain ⟨-, h2⟩ := h
    cases mode <;> cases sc <;> simp_all
    simp only [validateMultiple, List.append_eq_nil] at h2
    obtain ⟨h3, -⟩ := h2
    by_contra hlt
    simp [Int.not_le] at hlt
    simp [hlt] at h3
  · intro hlt h
    simp only [validateMultiple, if_pos hlt] at h
    simp at h

/-- Witness for C4: the sample config passes validation and indeed has
`top_k ≥ 1`, and a config with `top_k = 0` is rejected. -/
theorem C4_top_k_positive_witness :
    1 ≤ sampleMultiNone.top_k ∧
    validateMultiple { sampleMultiNone with top_k := 0 } ≠ [] :=
  ⟨(C4_top_k_positive sampleNodeMulti sampleMultiNone).1 rfl (by decide),
   (C4_top_k_positive sampleNodeMulti { sampleMultiNone with top_k := 0 }).2
     (by decide)⟩

/-- C5: an empty `dataset_ids` always fails validation with
`EmptyDatasetSet`, execution reports the validation errors without
retrieving, and the outcome is independent of the retrieval function (no
retrieval call influences it). -/
theorem C5_empty_dataset_rejected (c : KnowledgeRetrievalNodeType)
    (retrieve : String → List Candidate) (rerank : Candidate → ℚ)
    (h : c.dataset_ids = []) :
    ValidationError.EmptyDatasetSet ∈ validate c ∧
    execute c retrieve rerank = Except.error (validate c) ∧
    ∀ retrieve', execute c retrieve rerank = execute c retrieve' rerank := by
  have hmem : ValidationError.EmptyDatasetSet ∈ validate c := by
    simp [validate, h]
  have hne : validate c ≠ [] := by
    intro h0
    rw [h0] at hmem
    exact List.not_mem_nil _ hmem
  refine ⟨hmem, ?_, ?_⟩
  · simp [execute, hne]
  · intro retrieve'
    simp [execute, hne]

/-- Witness for C5 at the concrete empty-dataset node. -/
theorem C5_empty_dataset_rejected_witness :
    ValidationError.EmptyDatasetSet ∈ validate sampleNodeEmpty ∧
    execute sampleNodeEmpty retrieve0 rerank0 =
      Except.error (validate sampleNodeEmpty) ∧
    execute sampleNodeEmpty retrieve0 rerank0 =
      execute sampleNodeEmpty retrieve1 rerank0 := by
  have h := C5_empty_dataset_rejected sampleNodeEmpty retrieve0 rerank0 rfl
  exact ⟨h.1, h.2.1, h.2.2 retrieve1⟩

/-- Weights violating the sum invariant: 0.7 + 0.7. -/
def badWeights : Weights :=
  { sampleWeights with keyword_setting := { keyword_weight := 7/10 } }

/-- A weighted-mode config carrying the violating weights. -/
def badMultiWeighted : MultipleRetrievalConfig :=
  { sampleMultiWeighted with weights := some badWeights }

/-- The weighted-mode discriminator condition. -/
def selectsWeighted (m : MultipleRetrievalConfig) : Prop :=
  m.reranking_mode = some RerankingModeEnum.weightedScore

instance : DecidablePred selectsWeighted := fun m => by
  unfold selectsWeighted; infer_instance

/-- The 0.7/0.3 sample weights satisfy the bound/sum invariant. -/
theorem weightsOk_sampleWeights : WeightsOk sampleWeights := by
  refine ⟨?_, ?_, ?_, ?_, ?_⟩ <;> norm_num [sampleWeights, tol]

/-- The 0.7/0.7 weights violate the sum invariant. -/
theorem not_weightsOk_badWeights : ¬ WeightsOk badWeights := by
  intro h
  have h5 := h.2.2.2.2
  rw [abs_le] at h5
  norm_num [badWeights, sampleWeights, tol] at h5

/-- The weighted sample config passes validation. -/
theorem validateMultiple_sampleMultiWeighted :
    validateMultiple sampleMultiWeighted = [] := by
  norm_num [validateMultiple, sampleMultiWeighted, weightsOk_sampleWeights]

/-- C2: under weighted-score reranking the fused score of every candidate
is `vector_weight * vector_similarity + keyword_weight *
keyword_relevance`, the vector weight being the one carried by
`vector_setting` (alongside the embedding model it names). -/
theorem C2_weighted_fused_score (m : MultipleRetrievalConfig)
    (rerank : Candidate → ℚ) (c : Candidate) (w : Weights)
    (hmode : m.reranking_mode = some RerankingModeEnum.weightedScore)
    (hw : m.weights = some w) :
    fusedScore m rerank c =
      w.vector_setting.vector_weight * c.vector_similarity +
      w.keyword_setting.keyword_weight * c.keyword_relevance := by
  simp [fusedScore, hmode, hw]

/-- Witness for C2, scenario C: weights 0.7/0.3 on a candidate with
vector similarity 0.8 and keyword relevance 0.2 fuse to 0.62. -/
theorem C2_weighted_fused_score_witness :
    fusedScore sampleMultiWeighted rerank0 sampleCand = 62/100 := by
  rw [C2_weighted_fused_score sampleMultiWeighted rerank0 sampleCand
    sampleWeights rfl rfl]
  norm_num [sampleWeights, sampleCand]

/-- C3: when `weights` is present and the mode is weighted fusion, a
config accepted by validation has both weights in `[0,1]` and their sum
equal to 1 within 1e-6; a pair violating this is rejected by validation
rather than used as given. -/
theorem C3_weight_bounds_and_sum (m : MultipleRetrievalConfig) (w : Weights)
    (hmode : m.reranking_mode = some RerankingModeEnum.weightedScore)
    (hw : m.weights = some w) :
    (validateMultiple m = [] →
      0 ≤ w.vector_setting.vector_weight ∧
      w.vector_setting.vector_weight ≤ 1 ∧
      0 ≤ w.keyword_setting.keyword_weight ∧
      w.keyword_setting.keyword_weight ≤ 1 ∧
      |w.vector_setting.vector_weight + w.keyword_setting.keyword_weight - 1|
        ≤ 1/1000000) ∧
    (¬ WeightsOk w → validateMultiple m ≠ []) := by
  constructor
  · intro h
    simp only [validateMultiple, hmode, hw, List.append_eq_nil] at h
    obtain ⟨-, h2⟩ := h
    by_cases hok : WeightsOk w
    · simpa [WeightsOk, tol] using hok
    · simp [hok] at h2
  · intro hok h
    simp only [validateMultiple, hmode, hw, List.append_eq_nil] at h
    obtain ⟨-, h2⟩ := h
    simp [hok] at h2

/-- Witness for C3: the 0.7/0.3 pair passes and satisfies the bounds and
the sum invariant; the 0.7/0.7 pair is rejected. -/
theorem C3_weight_bounds_and_sum_witness :
    (0 ≤ sampleWeights.vector_setting.vector_weight ∧
     sampleWeights.vector_setting.vector_weight ≤ 1 ∧
     0 ≤ sampleWeights.keyword_setting.keyword_weight ∧
     sampleWeights.keyword_setting.keyword_weight ≤ 1 ∧
     |sampleWeights.vector_setting.vector_weight +
       sampleWeights.keyword_setting.keyword_weight - 1| ≤ 1/1000000) ∧
    validateMultiple badMultiWeighted ≠ [] :=
  ⟨(C3_weight_bounds_and_sum sampleMultiWeighted sampleWeights rfl rfl).1
     validateMultiple_sampleMultiWeighted,
   (C3_weight_bounds_and_sum badMultiWeighted badWeights rfl rfl).2
     not_weightsOk_badWeights⟩

/-- C6: weighted mode with `weights` absent fails validation with
`ConfigIncomplete`; when the mode does not select weighted fusion the
fusion plan is unchanged by whatever `weights` carries — the executor
ignores them and no error arises. -/
theorem C6_weights_presence (m : MultipleRetrievalConfig)
    (rerank : Candidate → ℚ) (cs : List Candidate) :
    (selectsWeighted m → m.weights = none →
      ValidationError.ConfigIncomplete ∈ validateMultiple m) ∧
    (¬ selectsWeighted m → ∀ w' : Option Weights,
      describeFusion { m with weights := w' } rerank cs =
        describeFusion m rerank cs) := by
  constructor
  · intro hmode hw
    have hm : m.reranking_mode = some RerankingModeEnum.weightedScore := hmode
    simp [validateMultiple, hm, hw]
  · intro hnm w'
    have hf : fusedScore { m with weights := w' } rerank = fusedScore m rerank := by
      funext c
      show (match m.reranking_mode with
        | none => c.native_score
        | some RerankingModeEnum.noRerank => c.native_score
        | some RerankingModeEnum.modelRerank => rerank c
        | some RerankingModeEnum.weightedScore =>
            match w' with
            | some w =>
                w.vector_setting.vector_weight * c.vector_similarity +
                w.keyword_setting.keyword_weight * c.keyword_relevance
            | none => c.native_score) = fusedScore m rerank c
      rcases hm : m.reranking_mode with _ | mo
      · simp [fusedScore, hm]
      · cases mo
        · simp [fusedScore, hm]
        · simp [fusedScore, hm]
        · exact absurd hm hnm
    simp only [describeFusion, describeFusionIndexed, hf]

/-- Witness for C6: a weighted-mode config without weights is flagged
incomplete, and adding weights to a no-reranking config leaves the fusion
result unchanged. -/
theorem C6_weights_presence_witness :
    ValidationError.ConfigIncomplete ∈
      validateMultiple
        { sampleMultiNone with
            reranking_mode := some RerankingModeEnum.weightedScore } ∧
    describeFusion { sampleMultiNone with weights := some sampleWeights }
        rerank0 [sampleCand] =
      describeFusion sampleMultiNone rerank0 [sampleCand] :=
  ⟨(C6_weights_presence
      { sampleMultiNone with
          reranking_mode := some RerankingModeEnum.weightedScore }
      rerank0 [sampleCand]).1 (by decide) rfl,
   (C6_weights_presence sampleMultiNone rerank0 [sampleCand]).2 (by decide)
     (some sampleWeights)⟩

/-- C7: in no-reranking mode the fusion plan ranks candidates by native
per-dataset score, merges, truncates to `top_k`, then drops results whose
score is below `score_threshold`: the result has at most `top_k` entries,
every entry scores at least the threshold, entries are in descending
native-score order, and every entry comes from the merged candidates. -/
theorem C7_no_rerank_plan (m : MultipleRetrievalConfig)
    (rerank : Candidate → ℚ) (cs : List Candidate) (t : ℚ)
    (hmode : m.reranking_mode = none ∨
      m.reranking_mode = some RerankingModeEnum.noRerank)
    (ht : m.score_threshold = ScoreThreshold.val t) :
    (describeFusion m rerank cs).length ≤ m.top_k.toNat ∧
    (∀ x ∈ describeFusion m rerank cs, t ≤ x.native_score) ∧
    (describeFusion m rerank cs).Pairwise
      (fun a b => b.native_score ≤ a.native_score) ∧
    (∀ x ∈ describeFusion m rerank cs, x ∈ cs) := by
  have hfn : ∀ c, fusedScore m rerank c = c.native_score := by
    intro c
    rcases hmode with h | h <;> simp [fusedScore, h]
  have hdf : describeFusionIndexed m rerank cs =
      ((cs.enum.insertionSort (candKey (fusedScore m rerank))).take
        m.top_k.toNat).filter
        (fun p => decide (t ≤ fusedScore m rerank p.2)) := by
    simp only [describeFusionIndexed, ht]
  have hsorted :
      (cs.enum.insertionSort (candKey (fusedScore m rerank))).Pairwise
        (candKey (fusedScore m rerank)) :=
    List.sorted_insertionSort _ _
  refine ⟨?_, ?_, ?_, ?_⟩
  · rw [describeFusion, hdf, List.length_map]
    exact le_trans (List.length_filter_le _ _) (List.length_take_le _ _)
  · intro x hx
    rw [describeFusion, hdf] at hx
    obtain ⟨p, hp, rfl⟩ := List.mem_map.1 hx
    have h2 := (List.mem_filter.1 hp).2
    rw [decide_eq_true_eq, hfn] at h2
    exact h2
  · rw [describeFusion, hdf]
    have hpw : (((cs.enum.insertionSort (candKey (fusedScore m rerank))).take
        m.top_k.toNat).filter
        (fun p => decide (t ≤ fusedScore m rerank p.2))).Pairwise
        (candKey (fusedScore m rerank)) :=
      (List.Pairwise.sublist (List.take_sublist m.top_k.toNat _)
        hsorted).sublist (List.filter_sublist _)
    rw [List.pairwise_map]
    refine hpw.imp ?_
    intro a b hab
    rcases hab with h | ⟨h, -⟩
    · have := le_of_lt h
      rwa [hfn, hfn] at this
    · have := le_of_eq h.symm
      rwa [hfn, hfn] at this
  · intro x hx
    rw [describeFusion, hdf] at hx
    obtain ⟨p, hp, rfl⟩ := List.mem_map.1 hx
    have h3 : p ∈ cs.enum.insertionSort (candKey (fusedScore m rerank)) :=
      (List.Sublist.trans (List.filter_sublist _)
        (List.take_sublist _ _)).subset hp
    have h4 : p ∈ cs.enum :=
      (List.perm_insertionSort _ _).mem_iff.1 h3
    have h5 := List.enum_map_snd cs
    rw [← h5]
    exact List.mem_map_of_mem Prod.snd h4

/-- Witness for C7 at scenario B's parameters: `top_k = 3`,
`score_threshold = 0.5`, no reranking, one dataset's candidates. -/
theorem C7_no_rerank_plan_witness :
    (describeFusion sampleMultiNone rerank0 [sampleCand]).length ≤
      sampleMultiNone.top_k.toNat ∧
    (∀ x ∈ describeFusion sampleMultiNone rerank0 [sampleCand],
      1/2 ≤ x.native_score) ∧
    (describeFusion sampleMultiNone rerank0 [sampleCand]).Pairwise
      (fun a b => b.native_score ≤ a.native_score) ∧
    (∀ x ∈ describeFusion sampleMultiNone rerank0 [sampleCand],
      x ∈ [sampleCand]) :=
  C7_no_rerank_plan sampleMultiNone rerank0 [sampleCand] (1/2)
    (Or.inr rfl) rfl

/-- C8: under weighted-score reranking, any two results of the fusion plan
with equal fused scores appear in stable input order (dataset order, then
original per-dataset rank), and the plan is a pure function of the
configuration and the candidates, so identical runs order identically. -/
theorem C8_stable_tie_order (m : MultipleRetrievalConfig)
    (rerank : Candidate → ℚ) (cs : List Candidate)
    (_hmode : m.reranking_mode = some RerankingModeEnum.weightedScore) :
    (describeFusionIndexed m rerank cs).Pairwise
      (fun a b => fusedScore m rerank a.2 = fusedScore m rerank b.2 →
        a.1 ≤ b.1) ∧
    describeFusion m rerank cs = describeFusion m rerank cs := by
  have hsorted :
      (cs.enum.insertionSort (candKey (fusedScore m rerank))).Pairwise
        (candKey (fusedScore m rerank)) :=
    List.sorted_insertionSort _ _
  have hpw : (describeFusionIndexed m rerank cs).Pairwise
      (candKey (fusedScore m rerank)) := by
    cases hth : m.score_threshold with
    | val t =>
        simp only [describeFusionIndexed, hth]
        exact (List.Pairwise.sublist (List.take_sublist _ _) hsorted).sublist
          (List.filter_sublist _)
    | null =>
        simp only [describeFusionIndexed, hth]
        exact List.Pairwise.sublist (List.take_sublist _ _) hsorted
    | undefined =>
        simp only [describeFusionIndexed, hth]
        exact List.Pairwise.sublist (List.take_sublist _ _) hsorted
  refine ⟨?_, rfl⟩
  refine hpw.imp ?_
  intro a b hab heq
  rcases hab with h | ⟨-, h⟩
  · exact absurd heq (ne_of_gt h)
  · exact h

/-- Witness for C8 at the weighted sample config with two identical (hence
equal-scoring) candidates. -/
theorem C8_stable_tie_order_witness :
    (describeFusionIndexed sampleMultiWeighted rerank0
        [sampleCand, sampleCand]).Pairwise
      (fun a b => fusedScore sampleMultiWeighted rerank0 a.2 =
        fusedScore sampleMultiWeighted rerank0 b.2 → a.1 ≤ b.1) ∧
    describeFusion sampleMultiWeighted rerank0 [sampleCand, sampleCand] =
      describeFusion sampleMultiWeighted rerank0 [sampleCand, sampleCand] :=
  C8_stable_tie_order sampleMultiWeighted rerank0 [sampleCand, sampleCand] rfl

/-- C9: whenever `weights` is present on a `MultipleRetrievalConfig`, its
`vector_setting` and `keyword_setting` are both present and fully
determined — `vector_setting` carries `vector_weight`,
`embedding_provider_name` and `embedding_model_name`, and
`keyword_setting` carries `keyword_weight`; the type makes these
sub-fields mandatory. -/
theorem C9_weights_subfields_mandatory (m : MultipleRetrievalConfig)
    (w : Weights) (_hw : m.weights = some w) :
    ∃ (vw : ℚ) (epn emn : String) (kw : ℚ),
      w.vector_setting =
        { vector_weight := vw
          embedding_provider_name := epn
          embedding_model_name := emn } ∧
      w.keyword_setting = { keyword_weight := kw } :=
  ⟨w.vector_setting.vector_weight, w.vector_setting.embedding_provider_name,
    w.vector_setting.embedding_model_name, w.keyword_setting.keyword_weight,
    rfl, rfl⟩

/-- Witness for C9 at the weighted sample config. -/
theorem C9_weights_subfields_mandatory_witness :
    ∃ (vw : ℚ) (epn emn : String) (kw : ℚ),
      sampleWeights.vector_setting =
        { vector_weight := vw
          embedding_provider_name := epn
          embedding_model_name := emn } ∧
      sampleWeights.keyword_setting = { keyword_weight := kw } :=
  C9_weights_subfields_mandatory sampleMultiWeighted sampleWeights rfl

/-- C10: `score_threshold` is a mandatory field whose value is a number,
null, or undefined (absence of a threshold is a null/undefined value, not
omission of the field), while `reranking_model`, `reranking_mode` and
`weights` may each be omitted entirely. -/
theorem C10_field_optionality :
    (∀ m : MultipleRetrievalConfig,
      (∃ q, m.score_threshold = ScoreThreshold.val q) ∨
      m.score_threshold = ScoreThreshold.null ∨
      m.score_threshold = ScoreThreshold.undefined) ∧
    (∃ m : MultipleRetrievalConfig,
      m.reranking_model = none ∧ m.reranking_mode = none ∧
      m.weights = none) := by
  constructor
  · intro m
    cases m.score_threshold with
    | val q => exact Or.inl ⟨q, rfl⟩
    | null => exact Or.inr (Or.inl rfl)
    | undefined => exact Or.inr (Or.inr rfl)
  · exact ⟨{ top_k := 1, score_threshold := ScoreThreshold.null },
      rfl, rfl, rfl⟩

end KnowledgeRetrieval
